import Mathlib

/-!
Verification of the OpenStack route reconciliation engine
(`pkg/cloudprovider/providers/openstack/openstack_routes.go`).

The engine performs two-resource read-modify-write updates against a remote
control plane: a router's route table (`routers.Get` / `routers.Update`) and a
port's allowed-address-pairs list (`neutronports.Get` / `neutronports.Update`),
with saga-style compensation on partial failure.

Shallow embedding conventions:
* Remote state (the single configured router plus the ports) is an explicit
  `Cloud` value threaded through each operation.
* Remote calls that can fail carry an injected outcome (`Option Err` per call
  site, or `Except Err _` for collaborator reads); `none` / `.ok` means the
  call succeeds against the modelled state.
* External collaborators that live outside this source file
  (`getAddressesByName`, `getServerByName` + `getAttachedInterfacesByID`,
  `net.ParseCIDR`, `govalidator.IsIPv4/IsIPv6`) are abstracted as inputs,
  following the spec's interface contracts; everything inside
  `openstack_routes.go` is translated statement by statement.
* Go slice aliasing is made explicit where it matters: in `DeleteRoute` the
  statement `routes[index] = routes[len(routes)-1]` writes through the backing
  array shared with `router.Routes`, so the snapshot later taken by
  `updateRoutes` (`origRoutes := router.Routes`) observes that write.  In
  `CreateRoute`, `append` never modifies positions below the original length,
  so the snapshot there is the pristine pre-call table.
-/

namespace OpenStack

/-- Error values surfaced by the engine.  `noAddressFound`, `notFound` and
`noRouterID` are the package sentinels (`ErrNoAddressFound`, `ErrNotFound`,
`errNoRouterID`); `remote msg` stands for an arbitrary transport error
returned by a remote call. -/
inductive Err where
  | noAddressFound
  | notFound
  | noRouterID
  | remote (msg : String)
deriving DecidableEq, Repr

/-- `routers.Route`: one entry of the router's route table. -/
structure RouterRoute where
  destinationCIDR : String
  nextHop : String
deriving DecidableEq, Repr

/-- `routers.Router`: the router resource (only the fields the engine reads). -/
structure Router where
  id : String
  routes : List RouterRoute
deriving DecidableEq, Repr

/-- `neutronports.AddressPair`: one allowed-address-pair filter entry. -/
structure AddressPair where
  ipAddress : String
deriving DecidableEq, Repr

/-- `neutronports.Port`: a port resource (only the fields the engine reads). -/
structure Port where
  id : String
  allowedAddressPairs : List AddressPair
deriving DecidableEq, Repr

/-- `v1.NodeAddress`: an address of a node, tagged with its type. -/
structure NodeAddress where
  type : String
  address : String
deriving DecidableEq, Repr

/-- The `v1.NodeInternalIP` address-type constant. -/
def NodeInternalIP : String := "InternalIP"

/-- One fixed IP of an attached interface. -/
structure FixedIP where
  ipAddress : String
deriving DecidableEq, Repr

/-- An attached interface as returned by `getAttachedInterfacesByID`. -/
structure Interface where
  portID : String
  fixedIPs : List FixedIP
deriving DecidableEq, Repr

/-- `cloudprovider.Route`: the caller-facing route value. -/
structure Route where
  name : String
  targetNode : String
  destinationCIDR : String
  blackhole : Bool
deriving DecidableEq, Repr

/-- The remote control-plane state the engine reads and writes: the single
configured router (`opts.RouterID`) and the ports. -/
structure Cloud where
  router : Router
  ports : List Port
deriving DecidableEq, Repr

/-- The IP-string library the engine delegates to (`net.ParseCIDR`,
`govalidator.IsIPv4`, `govalidator.IsIPv6`).  These live outside the
translated file, so the engine is parameterised over them.
`parseCIDRIP s` is `some t` when `net.ParseCIDR s` succeeds and the returned
IP renders as `t` via `IP.String()`; it is `none` when parsing fails (the
code ignores the error, and a nil `IP` renders as the string below). -/
structure IPLib where
  isIPv4 : String → Bool
  isIPv6 : String → Bool
  parseCIDRIP : String → Option String

/-- `IP.String()` of a nil `net.IP` in Go. -/
def nilIPString : String := "<nil>"

/-- The CIDR family flags computed at the top of `CreateRoute` and
`DeleteRoute`: `IP, _, _ := net.ParseCIDR(route.DestinationCIDR)` with the
error ignored, then `govalidator.IsIPv4(IP.String())` and
`govalidator.IsIPv6(IP.String())`. -/
def cidrFlags (lib : IPLib) (dest : String) : Bool × Bool :=
  let ipStr := (lib.parseCIDRIP dest).getD nilIPString
  (lib.isIPv4 ipStr, lib.isIPv6 ipStr)

/-- The per-address condition of the selection loop: the address has
`Type == v1.NodeInternalIP` and its family (per `govalidator`) matches the
CIDR's family flags. -/
def internalFamilyMatch (lib : IPLib) (cidrV4 cidrV6 : Bool) (a : NodeAddress) : Bool :=
  a.type == NodeInternalIP &&
    ((lib.isIPv4 a.address && cidrV4) || (lib.isIPv6 a.address && cidrV6))

/-- The next-hop selection loop shared verbatim by `CreateRoute` and
`DeleteRoute`: starting from `nexthop = ""`, take the first address with
`Type == v1.NodeInternalIP` whose family matches the CIDR flags and break.
The empty string signals that no address matched. -/
def selectNexthop (lib : IPLib) (cidrV4 cidrV6 : Bool) (addrs : List NodeAddress) : String :=
  match addrs.find? (fun a => internalFamilyMatch lib cidrV4 cidrV6 a) with
  | some a => a.address
  | none => ""

/-- Next-hop resolution for a destination CIDR: the family flags followed by
the selection loop, exactly as both operations compute it. -/
def resolvedNexthop (lib : IPLib) (dest : String) (addrs : List NodeAddress) : String :=
  selectNexthop lib (cidrFlags lib dest).1 (cidrFlags lib dest).2 addrs

/-- The idempotency scan in `CreateRoute`: does the table already contain an
entry with this `(DestinationCIDR, NextHop)` pair? -/
def findMatchingRoute (routes : List RouterRoute) (dest nh : String) : Bool :=
  routes.any (fun item => item.destinationCIDR == dest && item.nextHop == nh)

/-- `getPortIDByIP` (translated from the source): enumerate the target node's
attached interfaces and return the port of the first interface whose fixed-IP
list contains the next-hop address; `ErrNotFound` otherwise.  The server
lookup and interface enumeration are collaborators, so their outcome is the
`interfacesResult` input. -/
def getPortIDByIP (interfacesResult : Except Err (List Interface)) (ipAddress : String) :
    Except Err String :=
  match interfacesResult with
  | .error e => .error e
  | .ok intfs =>
    match intfs.find? (fun intf => intf.fixedIPs.any (fun f => f.ipAddress == ipAddress)) with
    | some intf => .ok intf.portID
    | none => .error .notFound

/-- `getPortByID` (translated from the source): fetch the port; a missing
port surfaces as `ErrNotFound`, and `getPortErr` injects a transport
failure of the remote `Get`. -/
def getPortByID (getPortErr : Option Err) (ports : List Port) (portID : String) :
    Except Err Port :=
  match getPortErr with
  | some e => .error e
  | none =>
    match ports.find? (fun p => p.id == portID) with
    | some p => .ok p
    | none => .error .notFound

/-- Outcomes of the collaborator reads and remote writes one `CreateRoute` or
`DeleteRoute` call performs, one field per call site (each site executes at
most once per call).  `none` / `.ok` means that remote call succeeds. -/
structure Env where
  addrsResult : Except Err (List NodeAddress)
  interfacesResult : Except Err (List Interface)
  getRouterErr : Option Err
  routerUpdateErr : Option Err
  getPortErr : Option Err
  portUpdateErr : Option Err
  routerUnwindErr : Option Err

/-- A remote write call (forward or compensating), with its payload. -/
inductive WriteCall where
  | routerUpdate (routes : List RouterRoute)
  | portUpdate (portID : String) (pairs : List AddressPair)
deriving DecidableEq, Repr

/-- Result of one engine operation: the returned error (`none` is Go `nil`),
the remote state after the call, and the remote write calls attempted, in
order. -/
structure OpResult where
  err : Option Err
  cloud : Cloud
  writes : List WriteCall
deriving DecidableEq, Repr

/-- Effect of a successful `routers.Update` on the modelled state. -/
def applyRouterUpdate (c : Cloud) (newRoutes : List RouterRoute) : Cloud :=
  { c with router := { c.router with routes := newRoutes } }

/-- Effect of a successful `neutronports.Update` on the modelled state. -/
def applyPortUpdate (c : Cloud) (portID : String) (pairs : List AddressPair) : Cloud :=
  { c with ports := c.ports.map (fun p =>
      if p.id == portID then { p with allowedAddressPairs := pairs } else p) }

/-- Modelled from the spec: the compensation runner (`newCaller` /
`Caller.call` / `Caller.disarm` live outside this source file).  Running the
route unwinder produced by `updateRoutes` issues one `routers.Update` with
the captured snapshot; per the unwinder body, a failure of that write is
logged and swallowed, leaving the state as it was. -/
def runRouteUnwind (unwindErr : Option Err) (c : Cloud) (orig : List RouterRoute) :
    Cloud × WriteCall :=
  match unwindErr with
  | some _ => (c, .routerUpdate orig)
  | none => (applyRouterUpdate c orig, .routerUpdate orig)

/-- `CreateRoute`, translated statement by statement from the source.  The
compensation discipline (`defer onFailure.call(unwind)` / `disarm`) is
inlined at each return point: a failure after the route-table write runs the
route unwinder; the pair unwinder is pushed last and is never reached by a
later failure. -/
def createRoute (lib : IPLib) (env : Env) (route : Route) (c : Cloud) : OpResult :=
  let flags := cidrFlags lib route.destinationCIDR
  match env.addrsResult with
  | .error e => ⟨some e, c, []⟩
  | .ok addrs =>
    if addrs.length == 0 then ⟨some .noAddressFound, c, []⟩
    else
      let nexthop := selectNexthop lib flags.1 flags.2 addrs
      if nexthop == "" then ⟨some .noAddressFound, c, []⟩
      else
        match env.getRouterErr with
        | some e => ⟨some e, c, []⟩
        | none =>
          let routes := c.router.routes
          if findMatchingRoute routes route.destinationCIDR nexthop then
            ⟨none, c, []⟩
          else
            let newRoutes := routes ++ [⟨route.destinationCIDR, nexthop⟩]
            match env.routerUpdateErr with
            | some e => ⟨some e, c, [.routerUpdate newRoutes]⟩
            | none =>
              let c1 := applyRouterUpdate c newRoutes
              let origRoutes := routes
              match getPortIDByIP env.interfacesResult nexthop with
              | .error e =>
                let u := runRouteUnwind env.routerUnwindErr c1 origRoutes
                ⟨some e, u.1, [.routerUpdate newRoutes, u.2]⟩
              | .ok portID =>
                match getPortByID env.getPortErr c1.ports portID with
                | .error e =>
                  let u := runRouteUnwind env.routerUnwindErr c1 origRoutes
                  ⟨some e, u.1, [.routerUpdate newRoutes, u.2]⟩
                | .ok port =>
                  if port.allowedAddressPairs.any
                      (fun item => item.ipAddress == route.destinationCIDR) then
                    ⟨none, c1, [.routerUpdate newRoutes]⟩
                  else
                    let newPairs := port.allowedAddressPairs ++ [⟨route.destinationCIDR⟩]
                    match env.portUpdateErr with
                    | some e =>
                      let u := runRouteUnwind env.routerUnwindErr c1 origRoutes
                      ⟨some e, u.1,
                        [.routerUpdate newRoutes, .portUpdate port.id newPairs, u.2]⟩
                    | none =>
                      ⟨none, applyPortUpdate c1 port.id newPairs,
                        [.routerUpdate newRoutes, .portUpdate port.id newPairs]⟩

/-- `DeleteRoute`, translated statement by statement from the source.  The
in-place deletion `routes[index] = routes[len(routes)-1]` writes through the
backing array shared with `router.Routes`, so the snapshot `origRoutes :=
router.Routes` taken inside `updateRoutes` is the full-length table with the
element at `index` already overwritten by the last element; that snapshot
(not the pristine table) is what the unwinder writes back.  The same aliasing
affects `port.AllowedAddressPairs`, whose unwinder however never runs. -/
def deleteRoute (lib : IPLib) (env : Env) (route : Route) (c : Cloud) : OpResult :=
  let flags := cidrFlags lib route.destinationCIDR
  match env.addrsResult with
  | .error e => ⟨some e, c, []⟩
  | .ok addrs =>
    if addrs.length == 0 then ⟨some .noAddressFound, c, []⟩
    else
      let nexthop := selectNexthop lib flags.1 flags.2 addrs
      if nexthop == "" then ⟨some .noAddressFound, c, []⟩
      else
        match env.getRouterErr with
        | some e => ⟨some e, c, []⟩
        | none =>
          let routes := c.router.routes
          match routes.findIdx? (fun item =>
              item.destinationCIDR == route.destinationCIDR && item.nextHop == nexthop) with
          | none => ⟨none, c, []⟩
          | some index =>
            let snapshot := routes.set index (routes.getLastD ⟨"", ""⟩)
            let newRoutes := snapshot.dropLast
            match env.routerUpdateErr with
            | some e => ⟨some e, c, [.routerUpdate newRoutes]⟩
            | none =>
              let c1 := applyRouterUpdate c newRoutes
              let origRoutes := snapshot
              match getPortIDByIP env.interfacesResult nexthop with
              | .error e =>
                let u := runRouteUnwind env.routerUnwindErr c1 origRoutes
                ⟨some e, u.1, [.routerUpdate newRoutes, u.2]⟩
              | .ok portID =>
                match getPortByID env.getPortErr c1.ports portID with
                | .error e =>
                  let u := runRouteUnwind env.routerUnwindErr c1 origRoutes
                  ⟨some e, u.1, [.routerUpdate newRoutes, u.2]⟩
                | .ok port =>
                  let addrPairs := port.allowedAddressPairs
                  match addrPairs.findIdx? (fun item =>
                      item.ipAddress == route.destinationCIDR) with
                  | none => ⟨none, c1, [.routerUpdate newRoutes]⟩
                  | some pidx =>
                    let newPairs := (addrPairs.set pidx (addrPairs.getLastD ⟨""⟩)).dropLast
                    match env.portUpdateErr with
                    | some e =>
                      let u := runRouteUnwind env.routerUnwindErr c1 origRoutes
                      ⟨some e, u.1,
                        [.routerUpdate newRoutes, .portUpdate port.id newPairs, u.2]⟩
                    | none =>
                      ⟨none, applyPortUpdate c1 port.id newPairs,
                        [.routerUpdate newRoutes, .portUpdate port.id newPairs]⟩

/-- One enumerated compute instance as `ListRoutes` consumes it: its node
name (`mapServerToNodeName`) and the `Address` strings of its
`nodeAddresses`, in order. -/
structure ServerInfo where
  name : String
  addrs : List String
deriving DecidableEq, Repr

/-- Go map insertion (`m[k] = v`), on an association-list model of the map:
the new binding is prepended and shadows any older binding for the same key
(the map is only ever observed through `mapGet`, for which this gives
exactly Go's overwrite semantics). -/
def mapInsert (m : List (String × String)) (k v : String) : List (String × String) :=
  (k, v) :: m

/-- Go map lookup: the most recent binding for the key, if any. -/
def mapGet (m : List (String × String)) (k : String) : Option String :=
  (m.find? (fun p => p.1 == k)).map (fun p => p.2)

/-- The address-to-node index `ListRoutes` builds: for each server in
enumeration order, record every address keyed by IP string; on a collision
the last writer wins. -/
def buildIndex (servers : List ServerInfo) : List (String × String) :=
  servers.foldl (fun m srv => srv.addrs.foldl (fun m a => mapInsert m a srv.name) m) []

/-- `ListRoutes`, translated from the source: build the index, fetch the
router, and emit one `cloudprovider.Route` per router route in order, with
`TargetNode` from the index and `Blackhole` set when the next hop is not in
the index. -/
def listRoutes (serversResult : Except Err (List ServerInfo)) (getRouterErr : Option Err)
    (c : Cloud) : Except Err (List Route) :=
  match serversResult with
  | .error e => .error e
  | .ok servers =>
    match getRouterErr with
    | some e => .error e
    | none =>
      let m := buildIndex servers
      .ok (c.router.routes.map (fun item =>
        match mapGet m item.nextHop with
        | some nodeName => ⟨item.destinationCIDR, nodeName, item.destinationCIDR, false⟩
        | none => ⟨item.destinationCIDR, "", item.destinationCIDR, true⟩))

/-- `RouterOpts`: the configuration the constructor validates. -/
structure RouterOpts where
  routerID : String
deriving DecidableEq, Repr

/-- The engine instance `NewRoutes` returns (the opaque service-client
handles are omitted; the modelled state threads the configured router
directly). -/
structure RoutesEngine where
  opts : RouterOpts
deriving DecidableEq, Repr

/-- `NewRoutes`, translated from the source: fail fast with `errNoRouterID`
when `opts.RouterID` is empty, otherwise return the engine. -/
def NewRoutes (opts : RouterOpts) : Except Err RoutesEngine :=
  if opts.routerID == "" then .error .noRouterID else .ok ⟨opts⟩

/-! ### Concrete fixtures

A small concrete deployment used to instantiate the universally quantified
theorems below: one router, one node `n1` with internal address `10.0.0.5`
on port `port1`, and the scenario of the spec's end-to-end test. -/

/-- A concrete instantiation of the external IP-string library, defined on
the addresses and CIDRs appearing in the fixtures. -/
def sampleIPLib : IPLib where
  isIPv4 := fun s => ["10.0.0.5", "10.1.0.0", "10.2.0.0", "10.0.0.6"].contains s
  isIPv6 := fun s => ["fd00::5", "fd00::"].contains s
  parseCIDRIP := fun s =>
    if s == "10.1.0.0/24" then some "10.1.0.0"
    else if s == "10.2.0.0/24" then some "10.2.0.0"
    else if s == "fd00::/64" then some "fd00::"
    else none

/-- Addresses of node `n1`: a single internal IPv4 address. -/
def sampleAddrs : List NodeAddress := [⟨NodeInternalIP, "10.0.0.5"⟩]

/-- Attached interfaces of node `n1`: one interface on `port1` carrying the
internal address. -/
def sampleInterfaces : List Interface := [⟨"port1", [⟨"10.0.0.5"⟩]⟩]

/-- Initial remote state: empty route table, empty filter list on `port1`. -/
def sampleCloud : Cloud := ⟨⟨"router1", []⟩, [⟨"port1", []⟩]⟩

/-- The route of the spec's end-to-end scenario. -/
def sampleRoute : Route := ⟨"10.1.0.0/24", "n1", "10.1.0.0/24", false⟩

/-- A route whose destination CIDR does not parse. -/
def sampleBadRoute : Route := ⟨"garbage", "n1", "garbage", false⟩

/-- Collaborator outcomes with every remote call succeeding. -/
def envOK : Env := ⟨.ok sampleAddrs, .ok sampleInterfaces, none, none, none, none, none⟩

/-- Remote state with two route-table entries, used to exercise deletion of
a non-final entry. -/
def cloudTwoRoutes : Cloud :=
  ⟨⟨"router1", [⟨"10.1.0.0/24", "10.0.0.5"⟩, ⟨"10.2.0.0/24", "10.0.0.6"⟩]⟩,
   [⟨"port1", [⟨"10.1.0.0/24"⟩]⟩]⟩

/-! ### Helper lemmas -/

/-- When both CIDR family flags are false, the selection loop matches no
address and leaves the next hop empty. -/
theorem selectNexthop_flags_false (lib : IPLib) (addrs : List NodeAddress) :
    selectNexthop lib false false addrs = "" := by
  unfold selectNexthop
  have h : addrs.find? (fun a => internalFamilyMatch lib false false a) = none := by
    rw [List.find?_eq_none]; intro x _; simp [internalFamilyMatch]
  rw [h]

/-- `List.find?` returns the first element satisfying the predicate: there
is a position holding the result, and the predicate fails at every earlier
position. -/
theorem find?_first_loc {α : Type} (p : α → Bool) :
    ∀ (l : List α) (a : α), l.find? p = some a →
      ∃ i, ∃ hi : i < l.length,
        l.get ⟨i, hi⟩ = a ∧ p a = true ∧
        ∀ j, ∀ hj : j < l.length, j < i → p (l.get ⟨j, hj⟩) = false := by
  intro l
  induction l with
  | nil => intro a h; simp at h
  | cons x xs ih =>
    intro a h
    rw [List.find?_cons] at h
    cases hx : p x with
    | true =>
      rw [hx] at h
      simp only [] at h
      have hxa : x = a := by injection h
      refine ⟨0, by simp, by simpa using hxa, hxa ▸ hx, ?_⟩
      intro j hj hj0
      omega
    | false =>
      rw [hx] at h
      simp only [] at h
      obtain ⟨i, hi, hget, hpa, hprev⟩ := ih a h
      refine ⟨i + 1, by simpa using Nat.succ_lt_succ hi, by simpa using hget, hpa, ?_⟩
      intro j hj hji
      cases j with
      | zero => simpa using hx
      | succ k =>
        have hk : k < xs.length := by simpa using hj
        have := hprev k hk (by omega)
        simpa using this

/-- The filter list of the port with the given identifier (empty when the
port is absent). -/
def portPairs (c : Cloud) (pid : String) : List AddressPair :=
  ((c.ports.find? (fun p => p.id == pid)).map (fun p => p.allowedAddressPairs)).getD []

/-- After a successful port update, looking the port up again yields exactly
the written filter list. -/
theorem find?_map_portUpdate (pid : String) (pairs : List AddressPair) :
    ∀ ps : List Port, (ps.find? (fun p => p.id == pid)).isSome →
      (ps.map (fun p =>
          if p.id == pid then { p with allowedAddressPairs := pairs } else p)).find?
        (fun p => p.id == pid) = some ⟨pid, pairs⟩ := by
  intro ps
  induction ps with
  | nil => simp
  | cons q rest ih =>
    intro h
    by_cases hq : (q.id == pid) = true
    · have hqid : q.id = pid := by simpa using hq
      simp [List.find?_cons, hq, hqid, -List.find?_map]
    · simp only [Bool.not_eq_true] at hq
      have hqne : q.id ≠ pid := by simpa using hq
      have h2 : (rest.find? (fun p => p.id == pid)).isSome := by
        rw [List.find?_cons, hq] at h
        exact h
      simp [List.find?_cons, hq, hqne, -List.find?_map]
      simpa using ih h2

/-- `portPairs` after `applyPortUpdate` on an existing port is the written
list. -/
theorem portPairs_applyPortUpdate (c : Cloud) (pid : String) (pairs : List AddressPair)
    (h : (c.ports.find? (fun p => p.id == pid)).isSome) :
    portPairs (applyPortUpdate c pid pairs) pid = pairs := by
  simp only [portPairs, applyPortUpdate]
  rw [find?_map_portUpdate pid pairs c.ports h]
  rfl

/-- Number of route-table entries matching a `(DestinationCIDR, NextHop)`
pair. -/
def countMatchingRoutes (routes : List RouterRoute) (dest nh : String) : Nat :=
  (routes.filter (fun item => item.destinationCIDR == dest && item.nextHop == nh)).length

/-- Number of filter entries matching a destination CIDR. -/
def countMatchingPairs (pairs : List AddressPair) (dest : String) : Nat :=
  (pairs.filter (fun item => item.ipAddress == dest)).length

/-- A table with no matching entry fails the idempotency scan. -/
theorem findMatchingRoute_false_of_count_zero (routes : List RouterRoute) (dest nh : String)
    (h : countMatchingRoutes routes dest nh = 0) :
    findMatchingRoute routes dest nh = false := by
  rw [countMatchingRoutes, List.length_eq_zero, List.filter_eq_nil_iff] at h
  rw [findMatchingRoute, List.any_eq_false]
  exact h

/-- A filter list with no matching entry fails the found-check. -/
theorem pairs_any_false_of_count_zero (pairs : List AddressPair) (dest : String)
    (h : countMatchingPairs pairs dest = 0) :
    pairs.any (fun item => item.ipAddress == dest) = false := by
  rw [countMatchingPairs, List.length_eq_zero, List.filter_eq_nil_iff] at h
  rw [List.any_eq_false]
  exact h

/-- Inverting a successful `getPortByID`: the injected outcome was success,
the port is in the list, and its identifier is the requested one. -/
theorem getPortByID_ok_elim (ge : Option Err) (ports : List Port) (pid : String) (port : Port)
    (h : getPortByID ge ports pid = .ok port) :
    ge = none ∧ ports.find? (fun p => p.id == pid) = some port ∧ port.id = pid := by
  unfold getPortByID at h
  cases he : ge with
  | some e => simp [he] at h
  | none =>
    cases hf : ports.find? (fun p => p.id == pid) with
    | none => simp [he, hf] at h
    | some p0 =>
      simp [he, hf] at h
      subst h
      refine ⟨rfl, by simp [hf], ?_⟩
      have := List.find?_some hf
      simpa using this

/-- Go's swap-with-last-and-truncate deletion, as a permutation: replacing
the element at `i` with the last element and dropping the last position is,
up to order, removal of the element at `i`. -/
theorem set_getLastD_dropLast_perm {α : Type} (l : List α) (d : α) (i : Nat)
    (hi : i < l.length) :
    ((l.set i (l.getLastD d)).dropLast).Perm (l.eraseIdx i) := by
  have hne : l ≠ [] := by
    intro h
    subst h
    simp at hi
  have hlast : l.getLastD d = l.getLast hne := by
    rw [List.getLastD_eq_getLast?, List.getLast?_eq_getLast l hne]
    rfl
  by_cases hilast : i = l.length - 1
  · subst hilast
    have hset : l.set (l.length - 1) (l.getLastD d) = l := by
      rw [hlast, List.getLast_eq_getElem l hne]
      apply List.ext_getElem
      · simp
      · intro j h1 h2
        rw [List.getElem_set]
        split
        · rename_i heq
          subst heq
          rfl
        · rfl
    rw [hset]
    have herase : l.eraseIdx (l.length - 1) = l.dropLast := by
      rw [List.eraseIdx_eq_take_drop_succ, List.dropLast_eq_take]
      have hlen : l.length - 1 + 1 = l.length := by omega
      rw [hlen, List.drop_length]
      simp
    rw [herase]
  · have hi2 : i + 1 < l.length := by omega
    have hDne : List.drop (i + 1) l ≠ [] := by
      intro hnil
      rw [List.drop_eq_nil_iff] at hnil
      omega
    have hsetdecomp : l.set i (l.getLastD d) =
        l.take i ++ (l.getLastD d) :: List.drop (i + 1) l := by
      rw [List.set_eq_take_append_cons_drop]
      simp [hi]
    have hDlast : (List.drop (i + 1) l).getLast hDne = l.getLast hne :=
      List.getLast_drop hDne
    have hDdecomp : (List.drop (i + 1) l).dropLast ++ [l.getLastD d] =
        List.drop (i + 1) l := by
      rw [hlast, ← hDlast]
      exact List.dropLast_append_getLast hDne
    rw [hsetdecomp, List.dropLast_append_of_ne_nil _ (by simp),
      List.dropLast_cons_of_ne_nil hDne, List.eraseIdx_eq_take_drop_succ]
    apply List.Perm.append_left
    calc (l.getLastD d :: (List.drop (i + 1) l).dropLast).Perm
          ((List.drop (i + 1) l).dropLast ++ [l.getLastD d]) := by
            have := @List.perm_append_comm _ [l.getLastD d] ((List.drop (i + 1) l).dropLast)
            simpa using this
      _ = List.drop (i + 1) l := hDdecomp

/-! ### Claim theorems -/

/-- C4: a `DeleteRoute` call whose next-hop resolution succeeds and whose
`(DestinationCIDR, NextHop)` pair is absent from the fetched route table
returns success (`nil`), performs zero remote writes, and leaves the remote
state (route table and filter lists) unchanged. -/
theorem deleteRoute_missing_entry_noop
    (lib : IPLib) (env : Env) (route : Route) (c : Cloud) (addrs : List NodeAddress)
    (haddrs : env.addrsResult = .ok addrs)
    (hne : addrs ≠ [])
    (hrouter : env.getRouterErr = none)
    (hnh : resolvedNexthop lib route.destinationCIDR addrs ≠ "")
    (hmiss : c.router.routes.findIdx? (fun item =>
        item.destinationCIDR == route.destinationCIDR &&
        item.nextHop == resolvedNexthop lib route.destinationCIDR addrs) = none) :
    deleteRoute lib env route c = ⟨none, c, []⟩ := by
  have h1 : (addrs.length == 0) = false := by simp [hne]
  simp only [resolvedNexthop] at hnh hmiss
  have h2 : (selectNexthop lib (cidrFlags lib route.destinationCIDR).1
      (cidrFlags lib route.destinationCIDR).2 addrs == "") = false := by
    simp [hnh]
  simp [deleteRoute, haddrs, h1, h2, hrouter, hmiss]

/-- C4 witness: deleting the sample route from the empty route table is a
successful no-op with no writes. -/
theorem deleteRoute_missing_entry_noop_witness :
    deleteRoute sampleIPLib envOK sampleRoute sampleCloud = ⟨none, sampleCloud, []⟩ :=
  deleteRoute_missing_entry_noop sampleIPLib envOK sampleRoute sampleCloud sampleAddrs
    rfl (by decide) rfl (by decide) (by decide)

/-- C9: constructing the engine with an empty router identifier fails with
the missing-configuration sentinel and yields no instance; with a non-empty
identifier it succeeds and returns the engine. -/
theorem NewRoutes_requires_routerID (opts : RouterOpts) :
    (opts.routerID = "" → NewRoutes opts = .error .noRouterID) ∧
    (opts.routerID ≠ "" → NewRoutes opts = .ok ⟨opts⟩) := by
  constructor <;> intro h <;> simp [NewRoutes, h]

/-- C9 witness: construction fails on the empty router id and succeeds on
`router1`. -/
theorem NewRoutes_requires_routerID_witness :
    NewRoutes ⟨""⟩ = .error .noRouterID ∧ NewRoutes ⟨"router1"⟩ = .ok ⟨⟨"router1"⟩⟩ :=
  ⟨(NewRoutes_requires_routerID ⟨""⟩).1 rfl,
   (NewRoutes_requires_routerID ⟨"router1"⟩).2 (by decide)⟩

/-- C10: when the destination CIDR does not parse (`net.ParseCIDR` fails,
its error is discarded, and both family flags are computed from the nil-IP
string, hence false) and the target node resolves to at least one address,
both operations return `ErrNoAddressFound` and perform no remote write. -/
theorem unparseable_cidr_returns_noAddressFound
    (lib : IPLib) (env : Env) (route : Route) (c : Cloud) (addrs : List NodeAddress)
    (hparse : lib.parseCIDRIP route.destinationCIDR = none)
    (h4 : lib.isIPv4 nilIPString = false)
    (h6 : lib.isIPv6 nilIPString = false)
    (haddrs : env.addrsResult = .ok addrs)
    (hne : addrs ≠ []) :
    createRoute lib env route c = ⟨some .noAddressFound, c, []⟩ ∧
    deleteRoute lib env route c = ⟨some .noAddressFound, c, []⟩ := by
  have hflags : cidrFlags lib route.destinationCIDR = (false, false) := by
    simp [cidrFlags, hparse, h4, h6]
  have h1 : (addrs.length == 0) = false := by simp [hne]
  constructor
  · simp [createRoute, haddrs, hflags, selectNexthop_flags_false, h1]
  · simp [deleteRoute, haddrs, hflags, selectNexthop_flags_false, h1]

/-- C10 witness: creating or deleting a route with destination `garbage`
for node `n1` (which has an address) returns `ErrNoAddressFound` without
touching the remote state. -/
theorem unparseable_cidr_returns_noAddressFound_witness :
    createRoute sampleIPLib envOK sampleBadRoute sampleCloud =
      ⟨some .noAddressFound, sampleCloud, []⟩ ∧
    deleteRoute sampleIPLib envOK sampleBadRoute sampleCloud =
      ⟨some .noAddressFound, sampleCloud, []⟩ :=
  unparseable_cidr_returns_noAddressFound sampleIPLib envOK sampleBadRoute sampleCloud
    sampleAddrs rfl rfl rfl rfl (by decide)

/-- Collaborator outcomes where the forward filter-list write fails and
every other remote call succeeds. -/
def envFilterFail : Env := { envOK with portUpdateErr := some (.remote "port update failed") }

/-- C1: when the route-table write succeeds and the subsequent filter-list
write fails, the compensation unwind (whose own write succeeds) restores the
router's route table to its exact pre-call entry list, the port filters are
untouched, and the error returned is the filter-write error. -/
theorem createRoute_filter_write_failure_restores_table
    (lib : IPLib) (env : Env) (route : Route) (c : Cloud)
    (addrs : List NodeAddress) (e : Err) (portID : String) (port : Port)
    (haddrs : env.addrsResult = .ok addrs)
    (hne : addrs ≠ [])
    (hnh : resolvedNexthop lib route.destinationCIDR addrs ≠ "")
    (hrouter : env.getRouterErr = none)
    (hnew : findMatchingRoute c.router.routes route.destinationCIDR
        (resolvedNexthop lib route.destinationCIDR addrs) = false)
    (hupd : env.routerUpdateErr = none)
    (hpid : getPortIDByIP env.interfacesResult
        (resolvedNexthop lib route.destinationCIDR addrs) = .ok portID)
    (hport : getPortByID env.getPortErr c.ports portID = .ok port)
    (hnopair : port.allowedAddressPairs.any
        (fun item => item.ipAddress == route.destinationCIDR) = false)
    (hfail : env.portUpdateErr = some e)
    (hunwind : env.routerUnwindErr = none) :
    (createRoute lib env route c).err = some e ∧
    (createRoute lib env route c).cloud = c := by
  have h1 : (addrs.length == 0) = false := by simp [hne]
  simp only [resolvedNexthop] at hnh hnew hpid
  have h2 : (selectNexthop lib (cidrFlags lib route.destinationCIDR).1
      (cidrFlags lib route.destinationCIDR).2 addrs == "") = false := by
    simp [hnh]
  simp [createRoute, haddrs, h1, h2, hrouter, hnew, hupd, hpid, hport, hnopair,
    hfail, hunwind, runRouteUnwind, applyRouterUpdate]

/-- C1 witness: in the end-to-end fixture with the filter write failing, the
call surfaces the filter-write error and the remote state equals the initial
state. -/
theorem createRoute_filter_write_failure_restores_table_witness :
    (createRoute sampleIPLib envFilterFail sampleRoute sampleCloud).err =
      some (.remote "port update failed") ∧
    (createRoute sampleIPLib envFilterFail sampleRoute sampleCloud).cloud = sampleCloud :=
  createRoute_filter_write_failure_restores_table sampleIPLib envFilterFail sampleRoute
    sampleCloud sampleAddrs (.remote "port update failed") "port1" ⟨"port1", []⟩
    rfl (by decide) (by decide) rfl rfl rfl rfl rfl rfl rfl rfl

/-- The error `CreateRoute` returns does not depend on the outcome of the
compensating route-table write. -/
theorem createRoute_err_indep_unwind (lib : IPLib) (env : Env) (route : Route) (c : Cloud)
    (u1 u2 : Option Err) :
    (createRoute lib { env with routerUnwindErr := u1 } route c).err =
    (createRoute lib { env with routerUnwindErr := u2 } route c).err := by
  obtain ⟨ar, ir, gr, ru, gp, pu, un⟩ := env
  simp only [createRoute, runRouteUnwind]
  repeat first | rfl | (split <;> try rfl)

/-- The error `DeleteRoute` returns does not depend on the outcome of the
compensating route-table write. -/
theorem deleteRoute_err_indep_unwind (lib : IPLib) (env : Env) (route : Route) (c : Cloud)
    (u1 u2 : Option Err) :
    (deleteRoute lib { env with routerUnwindErr := u1 } route c).err =
    (deleteRoute lib { env with routerUnwindErr := u2 } route c).err := by
  obtain ⟨ar, ir, gr, ru, gp, pu, un⟩ := env
  simp only [deleteRoute, runRouteUnwind]
  repeat first | rfl | (split <;> try rfl)

/-- C8: compensation failures are swallowed, never propagated: the error
either operation returns is independent of the unwind write's outcome (so
the original triggering error is what the caller sees), and a failing
compensation write leaves the modelled state untouched apart from logging. -/
theorem compensation_failure_never_masks_error
    (lib : IPLib) (env : Env) (route : Route) (c : Cloud) (u1 u2 : Option Err) :
    ((createRoute lib { env with routerUnwindErr := u1 } route c).err =
      (createRoute lib { env with routerUnwindErr := u2 } route c).err) ∧
    ((deleteRoute lib { env with routerUnwindErr := u1 } route c).err =
      (deleteRoute lib { env with routerUnwindErr := u2 } route c).err) ∧
    (∀ (e : Err) (c0 : Cloud) (orig : List RouterRoute),
      (runRouteUnwind (some e) c0 orig).1 = c0) :=
  ⟨createRoute_err_indep_unwind lib env route c u1 u2,
   deleteRoute_err_indep_unwind lib env route c u1 u2,
   fun _ _ _ => rfl⟩

/-- Collaborator outcomes where the target node resolves to no addresses. -/
def envNoAddrs : Env := { envOK with addrsResult := .ok [] }

/-- C6: the chosen next hop is the first address in the resolved list with
role internal whose family matches the destination CIDR's family; for a
v4-only CIDR the loop can only match addresses `govalidator` classifies as
IPv4 (and symmetrically for v6); and when the node has no addresses or none
matches, both operations fail with `ErrNoAddressFound` without any remote
write. -/
theorem nexthop_selection_first_internal_family_match
    (lib : IPLib) (env : Env) (route : Route) (c : Cloud) (addrs : List NodeAddress)
    (cv4 cv6 : Bool)
    (hcv : cidrFlags lib route.destinationCIDR = (cv4, cv6))
    (haddrs : env.addrsResult = .ok addrs) :
    (resolvedNexthop lib route.destinationCIDR addrs ≠ "" →
      ∃ i, ∃ hi : i < addrs.length,
        (addrs.get ⟨i, hi⟩).address = resolvedNexthop lib route.destinationCIDR addrs ∧
        internalFamilyMatch lib cv4 cv6 (addrs.get ⟨i, hi⟩) = true ∧
        ∀ j, ∀ hj : j < addrs.length, j < i →
          internalFamilyMatch lib cv4 cv6 (addrs.get ⟨j, hj⟩) = false) ∧
    (∀ a : NodeAddress, cv6 = false → internalFamilyMatch lib cv4 cv6 a = true →
      lib.isIPv4 a.address = true) ∧
    (∀ a : NodeAddress, cv4 = false → internalFamilyMatch lib cv4 cv6 a = true →
      lib.isIPv6 a.address = true) ∧
    ((addrs = [] ∨ resolvedNexthop lib route.destinationCIDR addrs = "") →
      createRoute lib env route c = ⟨some .noAddressFound, c, []⟩ ∧
      deleteRoute lib env route c = ⟨some .noAddressFound, c, []⟩) := by
  refine ⟨?_, ?_, ?_, ?_⟩
  · intro hsel
    unfold resolvedNexthop selectNexthop at hsel ⊢
    rw [hcv] at hsel ⊢
    cases hf : addrs.find? (fun a => internalFamilyMatch lib cv4 cv6 a) with
    | none => rw [hf] at hsel; simp at hsel
    | some a =>
      obtain ⟨i, hi, hget, hpa, hprev⟩ := find?_first_loc _ addrs a hf
      exact ⟨i, hi, by rw [hget], by rw [hget]; exact hpa, hprev⟩
  · intro a h6 hm
    simp [internalFamilyMatch, h6] at hm
    exact hm.2.1
  · intro a h4 hm
    simp [internalFamilyMatch, h4] at hm
    exact hm.2.1
  · intro hcase
    rcases hcase with hnil | hsel
    · subst hnil
      constructor
      · simp [createRoute, haddrs]
      · simp [deleteRoute, haddrs]
    · simp only [resolvedNexthop] at hsel
      constructor
      · by_cases hlen : (addrs.length == 0) = true
        · simp [createRoute, haddrs, hlen]
        · simp only [Bool.not_eq_true] at hlen
          simp [createRoute, haddrs, hlen, hsel]
      · by_cases hlen : (addrs.length == 0) = true
        · simp [deleteRoute, haddrs, hlen]
        · simp only [Bool.not_eq_true] at hlen
          simp [deleteRoute, haddrs, hlen, hsel]

/-- C6 witness: in the fixture, the selected next hop `10.0.0.5` sits at a
position of the address list satisfying the internal-and-family condition,
and with no resolvable address the call fails with `ErrNoAddressFound` and
no writes. -/
theorem nexthop_selection_first_internal_family_match_witness :
    (∃ i, ∃ hi : i < sampleAddrs.length,
        (sampleAddrs.get ⟨i, hi⟩).address =
          resolvedNexthop sampleIPLib sampleRoute.destinationCIDR sampleAddrs ∧
        internalFamilyMatch sampleIPLib true false (sampleAddrs.get ⟨i, hi⟩) = true ∧
        ∀ j, ∀ hj : j < sampleAddrs.length, j < i →
          internalFamilyMatch sampleIPLib true false (sampleAddrs.get ⟨j, hj⟩) = false) ∧
    createRoute sampleIPLib envNoAddrs sampleRoute sampleCloud =
      ⟨some .noAddressFound, sampleCloud, []⟩ :=
  ⟨(nexthop_selection_first_internal_family_match sampleIPLib envOK sampleRoute sampleCloud
      sampleAddrs true false rfl rfl).1 (by decide),
   ((nexthop_selection_first_internal_family_match sampleIPLib envNoAddrs sampleRoute
      sampleCloud [] true false rfl rfl).2.2.2 (Or.inl rfl)).1⟩

/-- C3: `CreateRoute` is idempotent.  Whenever the fetched table already has
an entry with the call's `(DestinationCIDR, NextHop)` pair, the call
succeeds with zero remote writes and no state change; consequently, starting
from a state with no matching route entry and no matching filter entry, a
first call succeeds and a second identical call is a no-op, leaving exactly
one matching route-table entry and exactly one matching filter entry. -/
theorem createRoute_idempotent
    (lib : IPLib) (env : Env) (route : Route) (c : Cloud) (addrs : List NodeAddress)
    (portID : String) (port : Port)
    (haddrs : env.addrsResult = .ok addrs)
    (hne : addrs ≠ [])
    (hnh : resolvedNexthop lib route.destinationCIDR addrs ≠ "")
    (hrouter : env.getRouterErr = none)
    (hupd : env.routerUpdateErr = none)
    (hpid : getPortIDByIP env.interfacesResult
        (resolvedNexthop lib route.destinationCIDR addrs) = .ok portID)
    (hport : getPortByID env.getPortErr c.ports portID = .ok port)
    (hpupd : env.portUpdateErr = none)
    (hfreshR : countMatchingRoutes c.router.routes route.destinationCIDR
        (resolvedNexthop lib route.destinationCIDR addrs) = 0)
    (hfreshP : countMatchingPairs port.allowedAddressPairs route.destinationCIDR = 0) :
    (∀ c2 : Cloud, findMatchingRoute c2.router.routes route.destinationCIDR
        (resolvedNexthop lib route.destinationCIDR addrs) = true →
      createRoute lib env route c2 = ⟨none, c2, []⟩) ∧
    (createRoute lib env route c).err = none ∧
    createRoute lib env route (createRoute lib env route c).cloud =
      ⟨none, (createRoute lib env route c).cloud, []⟩ ∧
    countMatchingRoutes (createRoute lib env route c).cloud.router.routes
      route.destinationCIDR (resolvedNexthop lib route.destinationCIDR addrs) = 1 ∧
    countMatchingPairs (portPairs (createRoute lib env route c).cloud port.id)
      route.destinationCIDR = 1 := by
  have h1 : (addrs.length == 0) = false := by simp [hne]
  simp only [resolvedNexthop] at hnh hpid hfreshR ⊢
  have h2 : (selectNexthop lib (cidrFlags lib route.destinationCIDR).1
      (cidrFlags lib route.destinationCIDR).2 addrs == "") = false := by
    simp [hnh]
  obtain ⟨hgpe, hfind, hpid_eq⟩ := getPortByID_ok_elim _ _ _ _ hport
  have hport2 : getPortByID none c.ports portID = .ok port := by
    rw [← hgpe]
    exact hport
  have hmF : findMatchingRoute c.router.routes route.destinationCIDR
      (selectNexthop lib (cidrFlags lib route.destinationCIDR).1
        (cidrFlags lib route.destinationCIDR).2 addrs) = false :=
    findMatchingRoute_false_of_count_zero _ _ _ hfreshR
  have hpF : port.allowedAddressPairs.any
      (fun item => item.ipAddress == route.destinationCIDR) = false :=
    pairs_any_false_of_count_zero _ _ hfreshP
  have hisSome : (c.ports.find? (fun p => p.id == port.id)).isSome := by
    rw [hpid_eq, hfind]
    rfl
  have hstep : ∀ c2 : Cloud, findMatchingRoute c2.router.routes route.destinationCIDR
      (selectNexthop lib (cidrFlags lib route.destinationCIDR).1
        (cidrFlags lib route.destinationCIDR).2 addrs) = true →
      createRoute lib env route c2 = ⟨none, c2, []⟩ := by
    intro c2 hmatch
    simp [createRoute, haddrs, h1, h2, hrouter, hmatch]
  have hred1 : createRoute lib env route c =
      ⟨none,
        applyPortUpdate
          (applyRouterUpdate c (c.router.routes ++
            [⟨route.destinationCIDR,
              selectNexthop lib (cidrFlags lib route.destinationCIDR).1
                (cidrFlags lib route.destinationCIDR).2 addrs⟩]))
          port.id
          (port.allowedAddressPairs ++ [⟨route.destinationCIDR⟩]),
        [.routerUpdate (c.router.routes ++
            [⟨route.destinationCIDR,
              selectNexthop lib (cidrFlags lib route.destinationCIDR).1
                (cidrFlags lib route.destinationCIDR).2 addrs⟩]),
         .portUpdate port.id (port.allowedAddressPairs ++ [⟨route.destinationCIDR⟩])]⟩ := by
    simp [createRoute, applyRouterUpdate, haddrs, h1, h2, hrouter, hmF, hupd, hpid,
      hgpe, hport2, hpF, hpupd]
  refine ⟨hstep, ?_, ?_, ?_, ?_⟩
  · rw [hred1]
  · rw [hred1]
    apply hstep
    simp [findMatchingRoute, applyPortUpdate, applyRouterUpdate]
  · rw [hred1]
    simp only [countMatchingRoutes] at hfreshR ⊢
    simp [applyPortUpdate, applyRouterUpdate, List.filter_append, hfreshR]
  · rw [hred1]
    dsimp only
    have hpp : portPairs
        (applyPortUpdate
          (applyRouterUpdate c
            (c.router.routes ++
              [({ destinationCIDR := route.destinationCIDR,
                  nextHop := selectNexthop lib (cidrFlags lib route.destinationCIDR).1
                    (cidrFlags lib route.destinationCIDR).2 addrs } : RouterRoute)]))
          port.id
          (port.allowedAddressPairs ++ [{ ipAddress := route.destinationCIDR }]))
        port.id =
        port.allowedAddressPairs ++ [{ ipAddress := route.destinationCIDR }] :=
      portPairs_applyPortUpdate _ _ _ hisSome
    rw [hpp]
    simp only [countMatchingPairs] at hfreshP ⊢
    simp [List.filter_append, hfreshP]

/-- C3 witness: in the fixture, a repeated `CreateRoute` of the sample route
is a no-op and the final state holds exactly one matching route entry and
one matching filter entry. -/
theorem createRoute_idempotent_witness :
    createRoute sampleIPLib envOK sampleRoute
        (createRoute sampleIPLib envOK sampleRoute sampleCloud).cloud =
      ⟨none, (createRoute sampleIPLib envOK sampleRoute sampleCloud).cloud, []⟩ ∧
    countMatchingRoutes
      (createRoute sampleIPLib envOK sampleRoute sampleCloud).cloud.router.routes
      sampleRoute.destinationCIDR
      (resolvedNexthop sampleIPLib sampleRoute.destinationCIDR sampleAddrs) = 1 ∧
    countMatchingPairs
      (portPairs (createRoute sampleIPLib envOK sampleRoute sampleCloud).cloud "port1")
      sampleRoute.destinationCIDR = 1 :=
  have h := createRoute_idempotent sampleIPLib envOK sampleRoute sampleCloud sampleAddrs
    "port1" ⟨"port1", []⟩ rfl (by decide) (by decide) rfl rfl rfl rfl rfl rfl rfl
  ⟨h.2.2.1, h.2.2.2.1, h.2.2.2.2⟩

/-- C7: a fully successful `DeleteRoute` that finds a matching route entry
writes back a route table that is, as a multiset, the fetched table with
exactly the entry at the found index removed; and, when a filter entry for
the destination CIDR exists, the filter list written to the owning port is
the fetched list with exactly that entry removed (order unspecified in
both). -/
theorem deleteRoute_removes_exactly_one_entry
    (lib : IPLib) (env : Env) (route : Route) (c : Cloud) (addrs : List NodeAddress)
    (index : Nat) (portID : String) (port : Port) (pidx : Nat)
    (haddrs : env.addrsResult = .ok addrs)
    (hne : addrs ≠ [])
    (hnh : resolvedNexthop lib route.destinationCIDR addrs ≠ "")
    (hrouter : env.getRouterErr = none)
    (hidx : c.router.routes.findIdx? (fun item =>
        item.destinationCIDR == route.destinationCIDR &&
        item.nextHop == resolvedNexthop lib route.destinationCIDR addrs) = some index)
    (hupd : env.routerUpdateErr = none)
    (hpid : getPortIDByIP env.interfacesResult
        (resolvedNexthop lib route.destinationCIDR addrs) = .ok portID)
    (hport : getPortByID env.getPortErr c.ports portID = .ok port)
    (hpidx : port.allowedAddressPairs.findIdx? (fun item =>
        item.ipAddress == route.destinationCIDR) = some pidx)
    (hpupd : env.portUpdateErr = none) :
    (deleteRoute lib env route c).err = none ∧
    ((deleteRoute lib env route c).cloud.router.routes).Perm
      (c.router.routes.eraseIdx index) ∧
    (portPairs (deleteRoute lib env route c).cloud port.id).Perm
      (port.allowedAddressPairs.eraseIdx pidx) := by
  have h1 : (addrs.length == 0) = false := by simp [hne]
  simp only [resolvedNexthop] at hnh hidx hpid
  have h2 : (selectNexthop lib (cidrFlags lib route.destinationCIDR).1
      (cidrFlags lib route.destinationCIDR).2 addrs == "") = false := by
    simp [hnh]
  have hiub : index < c.router.routes.length :=
    (List.findIdx?_eq_some_iff_findIdx_eq.mp hidx).1
  have hpub : pidx < port.allowedAddressPairs.length :=
    (List.findIdx?_eq_some_iff_findIdx_eq.mp hpidx).1
  have hlookup : env.getPortErr = none ∧
      c.ports.find? (fun p => p.id == portID) = some port := by
    unfold getPortByID at hport
    cases he : env.getPortErr with
    | some e => simp [he] at hport
    | none =>
      cases hf : c.ports.find? (fun p => p.id == portID) with
      | none => simp [he, hf] at hport
      | some p0 =>
        simp [he, hf] at hport
        exact ⟨rfl, by simp [hf, hport]⟩
  obtain ⟨hgpe, hfind⟩ := hlookup
  have hpid_eq : port.id = portID := by
    have := List.find?_some hfind
    simpa using this
  have hisSome : (c.ports.find? (fun p => p.id == port.id)).isSome := by
    rw [hpid_eq, hfind]
    rfl
  have hred : deleteRoute lib env route c =
      ⟨none,
        applyPortUpdate
          (applyRouterUpdate c
            ((c.router.routes.set index (c.router.routes.getLastD ⟨"", ""⟩)).dropLast))
          port.id
          ((port.allowedAddressPairs.set pidx
            (port.allowedAddressPairs.getLastD ⟨""⟩)).dropLast),
        [.routerUpdate
          ((c.router.routes.set index (c.router.routes.getLastD ⟨"", ""⟩)).dropLast),
         .portUpdate port.id
          ((port.allowedAddressPairs.set pidx
            (port.allowedAddressPairs.getLastD ⟨""⟩)).dropLast)]⟩ := by
    have hport2 : getPortByID none c.ports portID = .ok port := by
      rw [← hgpe]
      exact hport
    simp [deleteRoute, applyRouterUpdate, haddrs, h1, h2, hrouter, hidx, hupd, hpid,
      hgpe, hport2, hpidx, hpupd]
  rw [hred]
  refine ⟨rfl, ?_, ?_⟩
  · exact set_getLastD_dropLast_perm c.router.routes ⟨"", ""⟩ index hiub
  · rw [portPairs_applyPortUpdate
      (applyRouterUpdate c
        ((c.router.routes.set index (c.router.routes.getLastD ⟨"", ""⟩)).dropLast))
      port.id
      ((port.allowedAddressPairs.set pidx
        (port.allowedAddressPairs.getLastD ⟨""⟩)).dropLast)
      hisSome]
    exact set_getLastD_dropLast_perm port.allowedAddressPairs ⟨""⟩ pidx hpub

/-- C7 witness: deleting `10.1.0.0/24` from the two-entry fixture succeeds,
and both collections written back are the fetched ones with exactly the
matching entry removed, up to order. -/
theorem deleteRoute_removes_exactly_one_entry_witness :
    (deleteRoute sampleIPLib envOK sampleRoute cloudTwoRoutes).err = none ∧
    ((deleteRoute sampleIPLib envOK sampleRoute cloudTwoRoutes).cloud.router.routes).Perm
      (cloudTwoRoutes.router.routes.eraseIdx 0) ∧
    (portPairs (deleteRoute sampleIPLib envOK sampleRoute cloudTwoRoutes).cloud
        "port1").Perm
      ((⟨"port1", [⟨"10.1.0.0/24"⟩]⟩ : Port).allowedAddressPairs.eraseIdx 0) :=
  deleteRoute_removes_exactly_one_entry sampleIPLib envOK sampleRoute cloudTwoRoutes
    sampleAddrs 0 "port1" ⟨"port1", [⟨"10.1.0.0/24"⟩]⟩ 0
    rfl (by decide) (by decide) rfl rfl rfl rfl rfl rfl rfl

/-- Looking up a key after an insertion: the inserted value for that key,
the prior map's answer otherwise (Go map overwrite semantics). -/
theorem mapGet_mapInsert (m : List (String × String)) (k v k2 : String) :
    mapGet (mapInsert m k v) k2 = if k2 = k then some v else mapGet m k2 := by
  unfold mapGet mapInsert
  rw [List.find?_cons]
  by_cases h : k2 = k
  · subst h
    simp
  · have hne : (k == k2) = false := by
      simp
      exact fun he => h he.symm
    simp [hne, h]

/-- Folding one server's addresses into the index: the key maps to this
server's name when the key is among its addresses, and is otherwise looked
up in the prior map. -/
theorem insert_fold_get (nm : String) :
    ∀ (as : List String) (m : List (String × String)) (key : String),
      mapGet (as.foldl (fun m a => mapInsert m a nm) m) key =
        if key ∈ as then some nm else mapGet m key := by
  intro as
  induction as with
  | nil =>
    intro m key
    simp
  | cons a rest ih =>
    intro m key
    rw [List.foldl_cons, ih (mapInsert m a nm) key]
    by_cases hr : key ∈ rest
    · simp [hr]
    · rw [if_neg hr, mapGet_mapInsert]
      by_cases ha : key = a
      · simp [ha]
      · simp [ha, hr]

/-- The index built by `ListRoutes` maps a key to the name of the last
enumerated server containing it (last writer wins). -/
theorem build_fold_get :
    ∀ (servers : List ServerInfo) (m : List (String × String)) (key : String),
      mapGet (servers.foldl
          (fun m srv => srv.addrs.foldl (fun m a => mapInsert m a srv.name) m) m) key =
        ((servers.reverse.find? (fun s => s.addrs.contains key)).map
          (fun s => s.name)).or (mapGet m key) := by
  intro servers
  induction servers with
  | nil =>
    intro m key
    simp
  | cons srv rest ih =>
    intro m key
    rw [List.foldl_cons, ih _ key, List.reverse_cons, List.find?_append]
    cases hf : rest.reverse.find? (fun s => s.addrs.contains key) with
    | some s => simp [hf]
    | none =>
      rw [insert_fold_get]
      by_cases hmem : key ∈ srv.addrs
      · have hc : srv.addrs.contains key = true := List.elem_iff.mpr hmem
        simp [hmem, hc]
      · have hc : srv.addrs.contains key = false := by
          rw [Bool.eq_false_iff]
          intro hcon
          exact hmem (List.elem_iff.mp hcon)
        simp [hmem, hc]

/-- The index has no binding for a key exactly when no enumerated server
carries that address. -/
theorem mapGet_buildIndex_none_iff (servers : List ServerInfo) (key : String) :
    mapGet (buildIndex servers) key = none ↔ ∀ s ∈ servers, key ∉ s.addrs := by
  unfold buildIndex
  rw [build_fold_get servers [] key]
  have hnil : mapGet [] key = none := rfl
  rw [hnil, Option.or_none]
  constructor
  · intro h s hs hmem
    rw [Option.map_eq_none'] at h
    rw [List.find?_eq_none] at h
    exact h s (List.mem_reverse.mpr hs) (by simpa using List.elem_iff.mpr hmem)
  · intro h
    rw [Option.map_eq_none', List.find?_eq_none]
    intro s hs hcon
    exact h s (List.mem_reverse.mp hs) (List.elem_iff.mp (by simpa using hcon))

/-- A binding in the index comes from an enumerated server carrying the
address, with that server's name. -/
theorem mapGet_buildIndex_some (servers : List ServerInfo) (key n : String)
    (h : mapGet (buildIndex servers) key = some n) :
    ∃ s ∈ servers, s.name = n ∧ key ∈ s.addrs := by
  unfold buildIndex at h
  rw [build_fold_get servers [] key] at h
  have hnil : mapGet [] key = none := rfl
  rw [hnil, Option.or_none] at h
  cases hf : servers.reverse.find? (fun s => s.addrs.contains key) with
  | none =>
    rw [hf] at h
    simp at h
  | some s =>
    rw [hf] at h
    simp at h
    have hmem := List.mem_of_find?_eq_some hf
    have hp := List.find?_some hf
    exact ⟨s, List.mem_reverse.mp hmem, h, List.elem_iff.mp (by simpa using hp)⟩

/-- C5: `ListRoutes` emits exactly one `Route` per router route entry, in
the router's native order; an emitted route is a blackhole exactly when the
entry's next hop is an address of no enumerated instance; when some
instance carries the address, the target node is a matching instance's name
and the route is not a blackhole, and otherwise the target node is empty. -/
theorem listRoutes_blackhole_spec (servers : List ServerInfo) (c : Cloud) :
    ∃ routesOut : List Route,
      listRoutes (.ok servers) none c = .ok routesOut ∧
      routesOut.length = c.router.routes.length ∧
      ∀ i : Nat, ∀ entry : RouterRoute, c.router.routes[i]? = some entry →
        ∃ rt : Route, routesOut[i]? = some rt ∧
          rt.name = entry.destinationCIDR ∧
          rt.destinationCIDR = entry.destinationCIDR ∧
          (rt.blackhole = true ↔ ∀ s ∈ servers, entry.nextHop ∉ s.addrs) ∧
          ((∃ s ∈ servers, entry.nextHop ∈ s.addrs) →
            rt.blackhole = false ∧
            ∃ s ∈ servers, s.name = rt.targetNode ∧ entry.nextHop ∈ s.addrs) ∧
          (rt.blackhole = true → rt.targetNode = "") := by
  refine ⟨_, rfl, by simp, ?_⟩
  intro i entry hentry
  rw [List.getElem?_map, hentry, Option.map_some']
  refine ⟨_, rfl, ?_⟩
  cases hm : mapGet (buildIndex servers) entry.nextHop with
  | some nm =>
    obtain ⟨s, hs, hname, hmem⟩ := mapGet_buildIndex_some servers entry.nextHop nm hm
    refine ⟨rfl, rfl, ?_, ?_, ?_⟩
    · exact ⟨fun hfalse => (Bool.false_ne_true hfalse).elim,
        fun hall => absurd hmem (hall s hs)⟩
    · intro _
      exact ⟨rfl, s, hs, hname, hmem⟩
    · intro hfalse
      exact (Bool.false_ne_true hfalse).elim
  | none =>
    have hall := (mapGet_buildIndex_none_iff servers entry.nextHop).mp hm
    refine ⟨rfl, rfl, ?_, ?_, fun _ => rfl⟩
    · exact ⟨fun _ => hall, fun _ => rfl⟩
    · intro hex
      obtain ⟨s, hs, hmem⟩ := hex
      exact absurd hmem (hall s hs)

/-- C5 witness: on the two-entry fixture with only node `n1` known, the
emitted list pairs each entry positionally; instantiating the theorem at
index 1 shows the second route (next hop `10.0.0.6`, unknown) satisfies the
per-entry specification. -/
theorem listRoutes_blackhole_spec_witness :
    ∃ routesOut : List Route,
      listRoutes (.ok [⟨"n1", ["10.0.0.5"]⟩]) none cloudTwoRoutes = .ok routesOut ∧
      ∃ rt : Route, routesOut[1]? = some rt ∧
        rt.name = "10.2.0.0/24" ∧
        rt.destinationCIDR = "10.2.0.0/24" ∧
        (rt.blackhole = true ↔
          ∀ s ∈ [(⟨"n1", ["10.0.0.5"]⟩ : ServerInfo)], "10.0.0.6" ∉ s.addrs) ∧
        (rt.blackhole = true → rt.targetNode = "") := by
  obtain ⟨routesOut, hout, _, hpt⟩ :=
    listRoutes_blackhole_spec [⟨"n1", ["10.0.0.5"]⟩] cloudTwoRoutes
  obtain ⟨rt, hrt, hname, hdest, hbh, _, htgt⟩ :=
    hpt 1 ⟨"10.2.0.0/24", "10.0.0.6"⟩ (by decide)
  exact ⟨routesOut, hout, rt, hrt, hname, hdest, hbh, htgt⟩

/-- C2 (refuted as stated): deleting the first of two route-table entries
with a failure in the filter phase does not restore the pre-call table.  The
in-place `routes[index] = routes[len(routes)-1]` writes through the array
shared with `router.Routes`, so the unwinder's snapshot already has the
first entry overwritten by the last; the unwind "restores" a table
containing the last entry twice and the deleted entry not at all. -/
theorem deleteRoute_unwind_aliasing_failure :
    (deleteRoute sampleIPLib
        { envOK with interfacesResult := .error (.remote "interface enumeration failed") }
        sampleRoute cloudTwoRoutes).err = some (.remote "interface enumeration failed") ∧
    (deleteRoute sampleIPLib
        { envOK with interfacesResult := .error (.remote "interface enumeration failed") }
        sampleRoute cloudTwoRoutes).cloud.router.routes =
      [⟨"10.2.0.0/24", "10.0.0.6"⟩, ⟨"10.2.0.0/24", "10.0.0.6"⟩] ∧
    (deleteRoute sampleIPLib
        { envOK with interfacesResult := .error (.remote "interface enumeration failed") }
        sampleRoute cloudTwoRoutes).cloud.router.routes ≠ cloudTwoRoutes.router.routes := by
  refine ⟨rfl, rfl, ?_⟩
  decide

end OpenStack
